import Mathlib

/-!
Shallow embedding of src/send_slack_reminder.py (bitbucket-pr-reminder).

Python sets of strings are modelled as duplicate-free lists built with
List.insert (set membership is what the claims inspect; where the code
serializes a set with str.join, the iteration order of a Python set is
unspecified, so we serialize our canonical list order).  Python dicts of
strings are modelled as association lists.  JSON values are modelled by
an inductive type with Python truthiness.  Functions that can raise are
modelled in Except.
-/

namespace PRRem

/-- A JSON value, as parsed by response.json() in the client. -/
inductive Json where
  | null : Json
  | bool (b : Bool) : Json
  | num (n : Int) : Json
  | str (s : String) : Json
  | arr (xs : List Json) : Json
  | obj (kvs : List (String × Json)) : Json

/-- Python truthiness of a JSON value: None, False, 0, empty string,
empty array and empty object are falsy; everything else is truthy. -/
def Json.falsy : Json → Bool
  | .null => true
  | .bool b => !b
  | .num n => n == 0
  | .str s => s.isEmpty
  | .arr xs => xs.isEmpty
  | .obj kvs => kvs.isEmpty

/-- Python dict key lookup d[k] on a JSON object: the first binding of
the key, if any (a missing key raises KeyError in the source, which the
callers model in Except). -/
def Json.lookup : Json → String → Option Json
  | .obj kvs, k => (kvs.find? (fun kv => kv.1 == k)).map (·.2)
  | _, _ => none

/-- Python comparison of a JSON value with a string literal: equal only
when the value is that very string. -/
def Json.eqStr : Json → String → Bool
  | .str s, t => s == t
  | _, _ => false

/-- PRFetcher._fetch_url (src lines 24-39), with the HTTP exchange made
explicit: given the response status code and parsed JSON body, a
non-200 status raises, a falsy JSON body raises, and otherwise the body
is returned unchanged. -/
def fetch_url (status_code : Nat) (response_json : Json) : Except String Json :=
  if status_code != 200 then
    .error "Could not connect to BitBucket repo."
  else if response_json.falsy then
    .error "BitBucket returned an error."
  else
    .ok response_json

/-- PRFetcher.fetch_one_pr (src lines 41-51), applied to the body a
successful _fetch_url call returned: the source reads the key
consisting of the five letters of the word state followed by a space
(sic, src line 48), raising KeyError when that key is absent; when the
looked-up value is not the string OPEN it returns None, otherwise the
whole payload. -/
def fetch_one_pr (response_json : Json) : Except String (Option Json) :=
  match response_json.lookup "state " with
  | none => .error "KeyError"
  | some v => if v.eqStr "OPEN" then .ok (some response_json) else .ok none

/-- One reviewer entry of a PR payload: user.name and status. -/
structure Reviewer where
  name : String
  status : String
deriving DecidableEq

/-- The fields of a PR payload that the reminder reads: id, title,
author.user.name and the reviewers list. -/
structure PRData where
  id : Nat
  title : String
  author_name : String
  reviewers : List Reviewer
deriving DecidableEq

/-- One veto entry of a merge-status payload. -/
structure Veto where
  summaryMessage : String
  detailedMessage : String
deriving DecidableEq

/-- A merge-status payload: the conflicted flag and the vetoes list. -/
structure MergeStatus where
  conflicted : Bool
  vetoes : List Veto
deriving DecidableEq

/-- The Slack username mapping BITBUCKET_USER_NAME_TO_SLACK_USER_NAME,
modelled as an association list (a Python dict of strings). -/
def dictGet (d : List (String × String)) (k : String) : Option String :=
  (d.find? (fun kv => kv.1 == k)).map (·.2)

/-- SlackHandler.get_slack_name_of (src lines 92-97): dict.get with the
input name as default, prefixed with an at sign. -/
def get_slack_name_of (mapping : List (String × String)) (pr_user_name : String) :
    String :=
  "@" ++ (dictGet mapping pr_user_name).getD pr_user_name

/-- The loop body of PRResolver.get_undone_reviewers (src lines
129-132): a reviewer whose status is UNAPPROVED contributes the
translated handle to the set. -/
def undone_step (mapping : List (String × String)) (acc : List String)
    (reviewer : Reviewer) : List String :=
  if reviewer.status == "UNAPPROVED" then
    acc.insert (get_slack_name_of mapping reviewer.name)
  else acc

/-- PRResolver.get_undone_reviewers (src lines 127-134): the set of
translated handles of reviewers whose status is UNAPPROVED. -/
def get_undone_reviewers (mapping : List (String × String)) (pr : PRData) :
    List String :=
  pr.reviewers.foldl (undone_step mapping) []

/-- PRIsMergeableResolver.VETO_REASONS_WE_IGNORE (src lines 139-143). -/
def VETO_REASONS_WE_IGNORE : List String :=
  ["Requires approvals",
   "Requires all tasks to be resolved",
   "Insufficient branch permissions"]

/-- PRIsMergeableResolver.VETO_BUILD_NOT_FINISHED (src line 145). -/
def VETO_BUILD_NOT_FINISHED : String := "Not all required builds are successful yet"

/-- The failure substring looked for in a veto detail (src line 166). -/
def hasFailedBuilds (detail : String) : Bool :=
  decide ("has failed builds".toList <:+: detail.toList)

/-- The state PRIsMergeableResolver computes in _resolve_reasons. -/
structure Resolution where
  valid_vetos : List String
  is_conflicted : Bool
  builds_in_progress : Bool
  builds_have_failed : Bool
deriving DecidableEq

/-- One iteration of the veto loop of _resolve_reasons (src 159-172). -/
def resolve_step (r : Resolution) (veto : Veto) : Resolution :=
  let veto_msg := veto.summaryMessage
  if veto_msg ∈ VETO_REASONS_WE_IGNORE then r
  else if veto_msg == VETO_BUILD_NOT_FINISHED then
    if hasFailedBuilds veto.detailedMessage then
      { r with builds_have_failed := true }
    else
      { r with builds_in_progress := true }
  else
    { r with valid_vetos := r.valid_vetos.insert veto_msg }

/-- PRIsMergeableResolver._resolve_reasons (src lines 156-172), as a
pure function of the fetched merge-status payload: is_conflicted is the
payload's conflicted flag and the veto loop folds resolve_step over the
vetoes starting from the all-false, empty-set state set in init. -/
def resolve_reasons (merge_status : MergeStatus) : Resolution :=
  merge_status.vetoes.foldl resolve_step
    { valid_vetos := []
      is_conflicted := merge_status.conflicted
      builds_in_progress := false
      builds_have_failed := false }

/-- PRIsMergeableResolver.merge_vetos (src lines 174-175). -/
def merge_vetos (merge_status : MergeStatus) : List String :=
  (resolve_reasons merge_status).valid_vetos

/-- The entry for the author carrying unfinished-work reasons
(src line 244): the translated author handle with the reasons joined by
a semicolon separator in parentheses. -/
def author_with_reasons (pr_author : String) (authors_unfinished_work : List String) :
    String :=
  pr_author ++ " (" ++ String.intercalate "; " authors_unfinished_work ++ ")"

/-- The open-tasks entry (src lines 236-238). -/
def open_tasks_entry (undone_tasks : List String) : String :=
  "open tasks: " ++ String.intercalate " & " undone_tasks

/-- The authors_unfinished_work set of _collect_people_to_ping (src
lines 227-238): the valid vetoes, plus the open-tasks entry when there
are open tasks. -/
def authors_unfinished_work_of (merge_status : MergeStatus)
    (undone_tasks : List String) : List String :=
  let w := (resolve_reasons merge_status).valid_vetos
  if undone_tasks.isEmpty then w else w.insert (open_tasks_entry undone_tasks)

/-- PRReminder._collect_people_to_ping (src lines 216-250), as a pure
function of the PR payload, the merge-status payload the resolver
fetches for it, and the open-task texts fetch_open_tasks returns for
it.  Conflict short-circuits to the author alone with the merge
CONFLICT suffix; failed builds short-circuit to the author alone with
the builds FAILED suffix; otherwise the set holds the unapproved
reviewers plus, when the union of valid vetoes and the open-tasks entry
is non-empty, the author with those reasons, falling back to the author
alone when the set would be empty. -/
def collect_people_to_ping (mapping : List (String × String)) (pr : PRData)
    (merge_status : MergeStatus) (undone_tasks : List String) : List String :=
  let pr_author := get_slack_name_of mapping pr.author_name
  let res := resolve_reasons merge_status
  if res.is_conflicted then
    [pr_author ++ " (merge CONFLICT)"]
  else if res.builds_have_failed then
    [pr_author ++ " (builds FAILED)"]
  else
    let authors_unfinished_work := authors_unfinished_work_of merge_status undone_tasks
    let people_to_ping := get_undone_reviewers mapping pr
    let people_to_ping :=
      if authors_unfinished_work.isEmpty then people_to_ping
      else people_to_ping.insert (author_with_reasons pr_author authors_unfinished_work)
    if people_to_ping.isEmpty then [pr_author] else people_to_ping

/-- PRReminder._prepare_pr_objects, the filtering loop (src lines
186-194), applied to the raw PR list the fetch branch produced (for a
run with no pr id, the list fetch_all_prs returned).  users is None or
the list from the users flag; a PR is kept only when users is truthy
(not None and non-empty) and the author name is in it. -/
def prepare_pr_objects (raw_prs : List PRData) (users : Option (List String)) :
    List PRData :=
  raw_prs.filter
    (fun pr =>
      match users with
      | none => false
      | some us => !us.isEmpty && us.contains pr.author_name)

/-- PR_BASE_LINK (src lines 16-18) applied to a PR id, with the
repository link from the secrets module as a parameter. -/
def pr_link (repo : String) (pr_id : Nat) : String :=
  repo ++ "/pull-requests/" ++ toString pr_id ++ "/overview"

/-- MSG_TEMPLATE (src line 20), rendered for one PR (src lines
207-211): the link and title, then the comma-joined ping list. -/
def render_msg (pr_link pr_title : String) (people_to_ping : List String) : String :=
  "<" ++ pr_link ++ "|" ++ pr_title ++ ">\nWaiting for: " ++
    String.intercalate ", " people_to_ping ++ "\n"

/-- The digest PRReminder.run composes (src lines 196-214), as a pure
function of the raw fetched PR list, the users argument, and the
per-PR-id merge-status and open-tasks payloads the per-PR fetches
return: None when the prepared list is empty (no message is sent),
otherwise the list of rendered messages. -/
def run_digest (repo : String) (mapping : List (String × String))
    (raw_prs : List PRData) (users : Option (List String))
    (merge_status_of : Nat → MergeStatus) (tasks_of : Nat → List String) :
    Option (List String) :=
  let all_prs := prepare_pr_objects raw_prs users
  if all_prs.isEmpty then none
  else
    some (all_prs.map (fun pr =>
      render_msg (pr_link repo pr.id) pr.title
        (collect_people_to_ping mapping pr (merge_status_of pr.id) (tasks_of pr.id))))

/-! ### Lemmas about the veto-resolution fold -/

/-- The veto marking failed builds, as a predicate on one veto entry. -/
def failPred (v : Veto) : Bool :=
  v.summaryMessage == VETO_BUILD_NOT_FINISHED && hasFailedBuilds v.detailedMessage

/-- The veto marking builds still in progress. -/
def progPred (v : Veto) : Bool :=
  v.summaryMessage == VETO_BUILD_NOT_FINISHED && !hasFailedBuilds v.detailedMessage

theorem marker_not_ignored : VETO_BUILD_NOT_FINISHED ∉ VETO_REASONS_WE_IGNORE := by
  decide

theorem resolve_step_is_conflicted (r : Resolution) (v : Veto) :
    (resolve_step r v).is_conflicted = r.is_conflicted := by
  simp only [resolve_step]
  split_ifs <;> rfl

theorem resolve_step_failed (r : Resolution) (v : Veto) :
    (resolve_step r v).builds_have_failed = (r.builds_have_failed || failPred v) := by
  simp only [resolve_step, failPred]
  split_ifs with h1 h2 h3
  · have h2 : (v.summaryMessage == VETO_BUILD_NOT_FINISHED) = false :=
      beq_eq_false_iff_ne.mpr (fun h => marker_not_ignored (h ▸ h1))
    simp [h2]
  · simp [h2, h3]
  · simp [h2, h3]
  · simp [h2]

theorem resolve_step_progress (r : Resolution) (v : Veto) :
    (resolve_step r v).builds_in_progress = (r.builds_in_progress || progPred v) := by
  simp only [resolve_step, progPred]
  split_ifs with h1 h2 h3
  · have h2 : (v.summaryMessage == VETO_BUILD_NOT_FINISHED) = false :=
      beq_eq_false_iff_ne.mpr (fun h => marker_not_ignored (h ▸ h1))
    simp [h2]
  · simp [h2, h3]
  · simp [h2, h3]
  · simp [h2]

theorem resolve_step_valid_vetos (r : Resolution) (v : Veto) :
    (resolve_step r v).valid_vetos =
      if v.summaryMessage ∉ VETO_REASONS_WE_IGNORE
          ∧ v.summaryMessage ≠ VETO_BUILD_NOT_FINISHED
      then r.valid_vetos.insert v.summaryMessage
      else r.valid_vetos := by
  by_cases h1 : v.summaryMessage ∈ VETO_REASONS_WE_IGNORE
  · have h4 : ¬(v.summaryMessage ∉ VETO_REASONS_WE_IGNORE
        ∧ v.summaryMessage ≠ VETO_BUILD_NOT_FINISHED) := fun hc => hc.1 h1
    simp only [resolve_step, if_pos h1, if_neg h4]
  · by_cases h2 : v.summaryMessage = VETO_BUILD_NOT_FINISHED
    · have h4 : ¬(v.summaryMessage ∉ VETO_REASONS_WE_IGNORE
          ∧ v.summaryMessage ≠ VETO_BUILD_NOT_FINISHED) := fun hc => hc.2 h2
      have h2b : (v.summaryMessage == VETO_BUILD_NOT_FINISHED) = true :=
        beq_iff_eq.mpr h2
      simp only [resolve_step, if_neg h1, if_pos h2b, if_neg h4]
      split_ifs <;> rfl
    · have h4 : v.summaryMessage ∉ VETO_REASONS_WE_IGNORE
          ∧ v.summaryMessage ≠ VETO_BUILD_NOT_FINISHED := ⟨h1, h2⟩
      have h2b : (v.summaryMessage == VETO_BUILD_NOT_FINISHED) = false :=
        beq_eq_false_iff_ne.mpr h2
      simp only [resolve_step, if_neg h1, h2b, if_pos h4]
      simp

theorem foldl_is_conflicted (l : List Veto) (r : Resolution) :
    (l.foldl resolve_step r).is_conflicted = r.is_conflicted := by
  induction l generalizing r with
  | nil => rfl
  | cons v l ih => rw [List.foldl_cons, ih, resolve_step_is_conflicted]

theorem resolve_is_conflicted (ms : MergeStatus) :
    (resolve_reasons ms).is_conflicted = ms.conflicted := by
  unfold resolve_reasons
  rw [foldl_is_conflicted]

theorem foldl_builds_have_failed (l : List Veto) (r : Resolution) :
    (l.foldl resolve_step r).builds_have_failed
      = (r.builds_have_failed || l.any failPred) := by
  induction l generalizing r with
  | nil => simp
  | cons v l ih =>
    rw [List.foldl_cons, ih, resolve_step_failed, List.any_cons, Bool.or_assoc]

theorem foldl_builds_in_progress (l : List Veto) (r : Resolution) :
    (l.foldl resolve_step r).builds_in_progress
      = (r.builds_in_progress || l.any progPred) := by
  induction l generalizing r with
  | nil => simp
  | cons v l ih =>
    rw [List.foldl_cons, ih, resolve_step_progress, List.any_cons, Bool.or_assoc]

theorem foldl_valid_vetos_mem (l : List Veto) (r : Resolution) (x : String) :
    x ∈ (l.foldl resolve_step r).valid_vetos
      ↔ x ∈ r.valid_vetos
        ∨ ∃ v ∈ l, v.summaryMessage = x ∧ v.summaryMessage ∉ VETO_REASONS_WE_IGNORE
            ∧ v.summaryMessage ≠ VETO_BUILD_NOT_FINISHED := by
  induction l generalizing r with
  | nil => simp
  | cons v l ih =>
    rw [List.foldl_cons, ih, resolve_step_valid_vetos]
    split_ifs with h
    · constructor
      · rintro (hx | ⟨w, hw, rest⟩)
        · rcases List.mem_insert_iff.mp hx with hx | hx
          · exact Or.inr ⟨v, List.mem_cons_self v l, hx.symm, h.1, h.2⟩
          · exact Or.inl hx
        · exact Or.inr ⟨w, List.mem_cons_of_mem v hw, rest⟩
      · rintro (hx | ⟨w, hw, hsum, hnig, hnm⟩)
        · exact Or.inl (List.mem_insert_iff.mpr (Or.inr hx))
        · rcases List.mem_cons.mp hw with hwv | hwl
          · exact Or.inl (List.mem_insert_iff.mpr (Or.inl (hwv ▸ hsum.symm)))
          · exact Or.inr ⟨w, hwl, hsum, hnig, hnm⟩
    · constructor
      · rintro (hx | ⟨w, hw, rest⟩)
        · exact Or.inl hx
        · exact Or.inr ⟨w, List.mem_cons_of_mem v hw, rest⟩
      · rintro (hx | ⟨w, hw, hsum, hnig, hnm⟩)
        · exact Or.inl hx
        · rcases List.mem_cons.mp hw with hwv | hwl
          · exact absurd ⟨hwv ▸ hnig, hwv ▸ hnm⟩ h
          · exact Or.inr ⟨w, hwl, hsum, hnig, hnm⟩

/-! ### Lemmas about reviewer collection and the ping-list resolver -/

theorem foldl_undone_mem (mapping : List (String × String)) (l : List Reviewer)
    (acc : List String) (x : String) :
    x ∈ l.foldl (undone_step mapping) acc
      ↔ x ∈ acc
        ∨ ∃ r ∈ l, r.status = "UNAPPROVED" ∧ x = get_slack_name_of mapping r.name := by
  induction l generalizing acc with
  | nil => simp
  | cons r l ih =>
    rw [List.foldl_cons, ih]
    by_cases h : r.status = "UNAPPROVED"
    · have hb : (r.status == "UNAPPROVED") = true := beq_iff_eq.mpr h
      simp only [undone_step, if_pos hb]
      constructor
      · rintro (hx | ⟨w, hw, rest⟩)
        · rcases List.mem_insert_iff.mp hx with hx | hx
          · exact Or.inr ⟨r, List.mem_cons_self r l, h, hx⟩
          · exact Or.inl hx
        · exact Or.inr ⟨w, List.mem_cons_of_mem r hw, rest⟩
      · rintro (hx | ⟨w, hw, hst, hx⟩)
        · exact Or.inl (List.mem_insert_iff.mpr (Or.inr hx))
        · rcases List.mem_cons.mp hw with hwr | hwl
          · exact Or.inl (List.mem_insert_iff.mpr (Or.inl (hwr ▸ hx)))
          · exact Or.inr ⟨w, hwl, hst, hx⟩
    · have hb : (r.status == "UNAPPROVED") = false := beq_eq_false_iff_ne.mpr h
      simp only [undone_step, hb, Bool.false_eq_true, if_false]
      constructor
      · rintro (hx | ⟨w, hw, rest⟩)
        · exact Or.inl hx
        · exact Or.inr ⟨w, List.mem_cons_of_mem r hw, rest⟩
      · rintro (hx | ⟨w, hw, hst, hx⟩)
        · exact Or.inl hx
        · rcases List.mem_cons.mp hw with hwr | hwl
          · exact absurd (hwr ▸ hst) h
          · exact Or.inr ⟨w, hwl, hst, hx⟩

theorem mem_get_undone_reviewers (mapping : List (String × String)) (pr : PRData)
    (x : String) :
    x ∈ get_undone_reviewers mapping pr
      ↔ ∃ r ∈ pr.reviewers, r.status = "UNAPPROVED"
          ∧ x = get_slack_name_of mapping r.name := by
  unfold get_undone_reviewers
  rw [foldl_undone_mem]
  simp

theorem get_undone_reviewers_eq_nil (mapping : List (String × String)) (pr : PRData)
    (h : ∀ r ∈ pr.reviewers, r.status ≠ "UNAPPROVED") :
    get_undone_reviewers mapping pr = [] := by
  rcases he : get_undone_reviewers mapping pr with _ | ⟨x, l⟩
  · rfl
  · exfalso
    have hx : x ∈ get_undone_reviewers mapping pr := he ▸ List.mem_cons_self x l
    rcases (mem_get_undone_reviewers mapping pr x).mp hx with ⟨r, hr, hst, _⟩
    exact h r hr hst

theorem collect_congr (mapping : List (String × String)) (pr : PRData)
    (tasks : List String) (ms ms' : MergeStatus)
    (hv : (resolve_reasons ms).valid_vetos = (resolve_reasons ms').valid_vetos)
    (hc : (resolve_reasons ms).is_conflicted = (resolve_reasons ms').is_conflicted)
    (hf : (resolve_reasons ms).builds_have_failed
        = (resolve_reasons ms').builds_have_failed) :
    collect_people_to_ping mapping pr ms tasks
      = collect_people_to_ping mapping pr ms' tasks := by
  simp only [collect_people_to_ping, authors_unfinished_work_of]
  rw [hv, hc, hf]

theorem foldl_three_fields (l : List Veto) (r r' : Resolution)
    (hv : r.valid_vetos = r'.valid_vetos)
    (hc : r.is_conflicted = r'.is_conflicted)
    (hf : r.builds_have_failed = r'.builds_have_failed) :
    (l.foldl resolve_step r).valid_vetos = (l.foldl resolve_step r').valid_vetos
      ∧ (l.foldl resolve_step r).is_conflicted
          = (l.foldl resolve_step r').is_conflicted
      ∧ (l.foldl resolve_step r).builds_have_failed
          = (l.foldl resolve_step r').builds_have_failed := by
  induction l generalizing r r' with
  | nil => exact ⟨hv, hc, hf⟩
  | cons v l ih =>
    rw [List.foldl_cons, List.foldl_cons]
    exact ih (resolve_step r v) (resolve_step r' v)
      (by rw [resolve_step_valid_vetos, resolve_step_valid_vetos, hv])
      (by rw [resolve_step_is_conflicted, resolve_step_is_conflicted, hc])
      (by rw [resolve_step_failed, resolve_step_failed, hf])

theorem resolve_valid_vetos_mem (ms : MergeStatus) (x : String) :
    x ∈ (resolve_reasons ms).valid_vetos
      ↔ ∃ v ∈ ms.vetoes, v.summaryMessage = x ∧ v.summaryMessage ∉ VETO_REASONS_WE_IGNORE
          ∧ v.summaryMessage ≠ VETO_BUILD_NOT_FINISHED := by
  unfold resolve_reasons
  rw [foldl_valid_vetos_mem]
  simp

theorem resolve_builds_have_failed (ms : MergeStatus) :
    (resolve_reasons ms).builds_have_failed = ms.vetoes.any failPred := by
  unfold resolve_reasons
  rw [foldl_builds_have_failed]
  exact Bool.false_or _

theorem resolve_builds_in_progress (ms : MergeStatus) :
    (resolve_reasons ms).builds_in_progress = ms.vetoes.any progPred := by
  unfold resolve_reasons
  rw [foldl_builds_in_progress]
  exact Bool.false_or _

theorem isEmpty_false_of_mem {α : Type} {x : α} {l : List α} (h : x ∈ l) :
    l.isEmpty = false := by
  cases l with
  | nil => cases h
  | cons a l => rfl

theorem insert_isEmpty_false (x : String) (l : List String) :
    (l.insert x).isEmpty = false :=
  isEmpty_false_of_mem (List.mem_insert_self x l)

theorem collect_else (mapping : List (String × String)) (pr : PRData)
    (ms : MergeStatus) (tasks : List String)
    (hc : (resolve_reasons ms).is_conflicted = false)
    (hf : (resolve_reasons ms).builds_have_failed = false) :
    collect_people_to_ping mapping pr ms tasks =
      if (if (authors_unfinished_work_of ms tasks).isEmpty
          then get_undone_reviewers mapping pr
          else (get_undone_reviewers mapping pr).insert
                 (author_with_reasons (get_slack_name_of mapping pr.author_name)
                   (authors_unfinished_work_of ms tasks))).isEmpty
      then [get_slack_name_of mapping pr.author_name]
      else (if (authors_unfinished_work_of ms tasks).isEmpty
            then get_undone_reviewers mapping pr
            else (get_undone_reviewers mapping pr).insert
                   (author_with_reasons (get_slack_name_of mapping pr.author_name)
                     (authors_unfinished_work_of ms tasks))) := by
  simp only [collect_people_to_ping, hc, hf]
  simp

/-! ### Claim theorems -/

/-- C3: for every PR whose merge status has conflicted set, the ping-list
resolver returns exactly the singleton set holding the author's translated
chat handle suffixed with the merge CONFLICT marker, for every possible
combination of reviewers, open tasks, vetoes and build flags. -/
theorem C3_conflict_pings_author_only (mapping : List (String × String))
    (pr : PRData) (ms : MergeStatus) (tasks : List String)
    (h : ms.conflicted = true) :
    collect_people_to_ping mapping pr ms tasks
      = [get_slack_name_of mapping pr.author_name ++ " (merge CONFLICT)"] := by
  have hc2 : (resolve_reasons ms).is_conflicted = true := by
    rw [resolve_is_conflicted, h]
  simp [collect_people_to_ping, hc2]

/-- Witness for C3: a conflicted PR with an unapproved reviewer and an open
task still pings only the author with the merge CONFLICT suffix. -/
theorem C3_conflict_pings_author_only_witness :
    (MergeStatus.mk true [Veto.mk "Requires approvals" "d"]).conflicted = true
      ∧ collect_people_to_ping []
          (PRData.mk 7 "t" "alice" [Reviewer.mk "bob" "UNAPPROVED"])
          (MergeStatus.mk true [Veto.mk "Requires approvals" "d"]) ["task one"]
        = ["@alice (merge CONFLICT)"] :=
  ⟨rfl, C3_conflict_pings_author_only [] _ _ _ rfl⟩

/-- C4: every ignore-listed veto summary is excluded from the classifier's
other-valid-vetoes set, and every veto whose summary is neither
ignore-listed nor the builds-not-finished marker has its summary in that
set verbatim. -/
theorem C4_ignore_list_respected (ms : MergeStatus) :
    (∀ s ∈ VETO_REASONS_WE_IGNORE, s ∉ (resolve_reasons ms).valid_vetos)
      ∧ ∀ v ∈ ms.vetoes,
          v.summaryMessage ∉ VETO_REASONS_WE_IGNORE →
          v.summaryMessage ≠ VETO_BUILD_NOT_FINISHED →
          v.summaryMessage ∈ (resolve_reasons ms).valid_vetos := by
  constructor
  · intro s hs hmem
    rcases (resolve_valid_vetos_mem ms s).mp hmem with ⟨v, _, hsum, hnig, _⟩
    exact hnig (by rw [hsum]; exact hs)
  · intro v hv hnig hnm
    exact (resolve_valid_vetos_mem ms _).mpr ⟨v, hv, rfl, hnig, hnm⟩

/-- Witness for C4: an ignore-listed summary is kept out of the set while a
novel summary is kept in it. -/
theorem C4_ignore_list_respected_witness :
    "Requires approvals"
        ∉ (resolve_reasons (MergeStatus.mk false
            [Veto.mk "Requires approvals" "d", Veto.mk "Custom veto" "d"])).valid_vetos
      ∧ "Custom veto"
        ∈ (resolve_reasons (MergeStatus.mk false
            [Veto.mk "Requires approvals" "d", Veto.mk "Custom veto" "d"])).valid_vetos :=
  ⟨(C4_ignore_list_respected _).1 "Requires approvals" (by decide),
   (C4_ignore_list_respected _).2 (Veto.mk "Custom veto" "d") (by decide)
     (by decide) (by decide)⟩

/-- C5 counterexample: a merge-status payload with one builds-not-finished
veto whose detail contains the failure substring and a second one whose
detail does not makes the classifier set builds_have_failed and
builds_in_progress both true, refuting the claimed mutual exclusivity. -/
theorem C5_counterexample :
    Veto.mk VETO_BUILD_NOT_FINISHED "This PR has failed builds"
        ∈ (MergeStatus.mk false
            [Veto.mk VETO_BUILD_NOT_FINISHED "This PR has failed builds",
             Veto.mk VETO_BUILD_NOT_FINISHED "builds in flight"]).vetoes
      ∧ hasFailedBuilds "This PR has failed builds" = true
      ∧ (resolve_reasons (MergeStatus.mk false
            [Veto.mk VETO_BUILD_NOT_FINISHED "This PR has failed builds",
             Veto.mk VETO_BUILD_NOT_FINISHED "builds in flight"])).builds_have_failed
          = true
      ∧ (resolve_reasons (MergeStatus.mk false
            [Veto.mk VETO_BUILD_NOT_FINISHED "This PR has failed builds",
             Veto.mk VETO_BUILD_NOT_FINISHED "builds in flight"])).builds_in_progress
          = true := by
  decide

/-- C5 (amended): for every merge-status payload containing a
builds-not-finished veto whose detail holds the failure substring, and
containing no builds-not-finished veto whose detail lacks it, the
classifier outputs builds_have_failed true and builds_in_progress false. -/
theorem C5_build_flags_amended (ms : MergeStatus)
    (h1 : ∃ v ∈ ms.vetoes, v.summaryMessage = VETO_BUILD_NOT_FINISHED
            ∧ hasFailedBuilds v.detailedMessage = true)
    (h2 : ∀ v ∈ ms.vetoes, v.summaryMessage = VETO_BUILD_NOT_FINISHED
            → hasFailedBuilds v.detailedMessage = true) :
    (resolve_reasons ms).builds_have_failed = true
      ∧ (resolve_reasons ms).builds_in_progress = false := by
  constructor
  · rw [resolve_builds_have_failed]
    rcases h1 with ⟨v, hv, hs, hd⟩
    exact List.any_eq_true.mpr ⟨v, hv, by simp [failPred, hs, hd]⟩
  · rw [resolve_builds_in_progress]
    rw [List.any_eq_false]
    intro v hv
    by_cases hs : v.summaryMessage = VETO_BUILD_NOT_FINISHED
    · simp [progPred, hs, h2 v hv hs]
    · simp [progPred, beq_eq_false_iff_ne.mpr hs]

/-- Witness for C5 (amended): a payload whose only veto is a failed-builds
veto yields builds_have_failed true and builds_in_progress false. -/
theorem C5_build_flags_amended_witness :
    (resolve_reasons (MergeStatus.mk false
        [Veto.mk VETO_BUILD_NOT_FINISHED "This PR has failed builds"])).builds_have_failed
        = true
      ∧ (resolve_reasons (MergeStatus.mk false
          [Veto.mk VETO_BUILD_NOT_FINISHED "This PR has failed builds"])).builds_in_progress
        = false :=
  C5_build_flags_amended _ (by decide) (by decide)

/-- C7: the username translation is total: a name present in the mapping
translates to the mapped chat name behind an at sign, and a name absent
from the mapping translates to itself behind an at sign. -/
theorem C7_translation_total (mapping : List (String × String)) (name : String) :
    (∀ y, dictGet mapping name = some y
        → get_slack_name_of mapping name = "@" ++ y)
      ∧ (dictGet mapping name = none
        → get_slack_name_of mapping name = "@" ++ name) := by
  constructor
  · intro y hy
    unfold get_slack_name_of
    rw [hy, Option.getD_some]
  · intro hy
    unfold get_slack_name_of
    rw [hy, Option.getD_none]

/-- Witness for C7: a mapped name and an unmapped name both translate. -/
theorem C7_translation_total_witness :
    get_slack_name_of [("alice", "al")] "alice" = "@" ++ "al"
      ∧ get_slack_name_of [("alice", "al")] "bob" = "@" ++ "bob" :=
  ⟨(C7_translation_total [("alice", "al")] "alice").1 "al" rfl,
   (C7_translation_total [("alice", "al")] "bob").2 rfl⟩

/-- Whether a client fetch raised. -/
def isErr : Except String Json → Bool
  | .error _ => true
  | .ok _ => false

/-- C8: a non-200 response raises, a 200 response with a falsy JSON body
raises, and a 200 response with a truthy JSON body is returned unchanged. -/
theorem C8_fetch_contract (status_code : Nat) (body : Json) :
    (status_code ≠ 200 → isErr (fetch_url status_code body) = true)
      ∧ (status_code = 200 → body.falsy = true
          → isErr (fetch_url status_code body) = true)
      ∧ (status_code = 200 → body.falsy = false
          → fetch_url status_code body = .ok body) := by
  refine ⟨?_, ?_, ?_⟩
  · intro h
    have hb : (status_code != 200) = true := bne_iff_ne.mpr h
    simp [fetch_url, hb, isErr]
  · intro h hf
    subst h
    simp [fetch_url, hf, isErr]
  · intro h hf
    subst h
    simp [fetch_url, hf]

/-- Witness for C8: a 503 response raises, a 200 response with an empty
JSON object raises, and a 200 response with a string body is returned. -/
theorem C8_fetch_contract_witness :
    isErr (fetch_url 503 (Json.str "oops")) = true
      ∧ isErr (fetch_url 200 (Json.obj [])) = true
      ∧ fetch_url 200 (Json.str "ok") = .ok (Json.str "ok") :=
  ⟨(C8_fetch_contract 503 (Json.str "oops")).1 (by decide),
   (C8_fetch_contract 200 (Json.obj [])).2.1 rfl rfl,
   (C8_fetch_contract 200 (Json.str "ok")).2.2 rfl rfl⟩

/-- A merge-status fetch answering every PR id with no conflict and no
vetoes. -/
def no_merge_conflicts : Nat → MergeStatus := fun _ => MergeStatus.mk false []

/-- An open-tasks fetch answering every PR id with no open tasks. -/
def no_tasks : Nat → List String := fun _ => []

/-- C1 (code bug): with the users argument absent, the filtering loop keeps
no PR at all, because the source keeps a PR only when users is truthy and
holds the author; so a run with neither flag composes no reminder message
for any fetched PR, and run_digest sends nothing even when the list fetch
returned an open PR. -/
theorem C1_no_users_drops_every_pr :
    (∀ raw_prs : List PRData, prepare_pr_objects raw_prs none = [])
      ∧ run_digest "repo" []
          [PRData.mk 1 "Fix bug" "alice" [Reviewer.mk "bob" "UNAPPROVED"]]
          none no_merge_conflicts no_tasks = none := by
  constructor
  · intro raw_prs
    simp [prepare_pr_objects]
  · rfl

/-- C2 (code bug): the single-PR fetch reads the PR state under a key
spelled with a trailing space, so on a payload carrying its state under
the key spelled without one - as the list endpoint and the spec name the
field - it raises KeyError instead of returning the payload, even for an
OPEN PR. -/
theorem C2_state_key_typo :
    (Json.obj [("state", Json.str "OPEN")]).lookup "state" = some (Json.str "OPEN")
      ∧ fetch_one_pr (Json.obj [("state", Json.str "OPEN")]) = .error "KeyError" := by
  constructor <;> rfl

/-- C6: a PR with no unapproved reviewer, no open task, an empty
other-valid-vetoes set, no conflict and no failed builds pings exactly the
author, with no suffix. -/
theorem C6_quiet_pr_pings_author (mapping : List (String × String)) (pr : PRData)
    (ms : MergeStatus) (tasks : List String)
    (hr : ∀ r ∈ pr.reviewers, r.status ≠ "UNAPPROVED")
    (ht : tasks = [])
    (hv : (resolve_reasons ms).valid_vetos = [])
    (hc : ms.conflicted = false)
    (hf : (resolve_reasons ms).builds_have_failed = false) :
    collect_people_to_ping mapping pr ms tasks
      = [get_slack_name_of mapping pr.author_name] := by
  have hc2 : (resolve_reasons ms).is_conflicted = false := by
    rw [resolve_is_conflicted, hc]
  have hu := get_undone_reviewers_eq_nil mapping pr hr
  subst ht
  simp [collect_people_to_ping, authors_unfinished_work_of, hc2, hf, hv, hu]

/-- Witness for C6: an all-approved PR whose only veto is ignore-listed is
answered with the author's handle alone. -/
theorem C6_quiet_pr_pings_author_witness :
    (resolve_reasons (MergeStatus.mk false
        [Veto.mk "Requires approvals" "d"])).valid_vetos = []
      ∧ (MergeStatus.mk false [Veto.mk "Requires approvals" "d"]).conflicted = false
      ∧ (resolve_reasons (MergeStatus.mk false
          [Veto.mk "Requires approvals" "d"])).builds_have_failed = false
      ∧ collect_people_to_ping [("alice", "al")]
          (PRData.mk 3 "t" "alice" [Reviewer.mk "bob" "APPROVED"])
          (MergeStatus.mk false [Veto.mk "Requires approvals" "d"]) []
        = ["@al"] :=
  ⟨by decide, rfl, by decide,
   C6_quiet_pr_pings_author [("alice", "al")]
     (PRData.mk 3 "t" "alice" [Reviewer.mk "bob" "APPROVED"])
     (MergeStatus.mk false [Veto.mk "Requires approvals" "d"]) []
     (by decide) rfl (by decide) rfl (by decide)⟩

/-- C9 counterexample: the author of a quiet PR is also listed as a
reviewer with status APPROVED; the fallback still pings the author, so the
translated handle of a reviewer whose status is not UNAPPROVED does appear
in the ping set of a PR that is not conflicted and has no failed builds. -/
theorem C9_counterexample :
    Reviewer.mk "alice" "APPROVED"
        ∈ (PRData.mk 1 "t" "alice" [Reviewer.mk "alice" "APPROVED"]).reviewers
      ∧ "APPROVED" ≠ "UNAPPROVED"
      ∧ (resolve_reasons (MergeStatus.mk false [])).is_conflicted = false
      ∧ (resolve_reasons (MergeStatus.mk false [])).builds_have_failed = false
      ∧ get_slack_name_of [] "alice"
          ∈ collect_people_to_ping []
              (PRData.mk 1 "t" "alice" [Reviewer.mk "alice" "APPROVED"])
              (MergeStatus.mk false []) [] := by
  decide

/-- C9 (amended): for every PR that is not conflicted and has no failed
builds, every reviewer whose status is UNAPPROVED has their translated
handle in the ping set, regardless of open tasks and other vetoes; and
every element of the ping set is an unapproved reviewer's handle, the
author's bare handle, or the author's entry carrying the unfinished-work
reasons - so the handle of a reviewer with any other status appears only
when it coincides with one of those. -/
theorem C9_unapproved_reviewers_pinged (mapping : List (String × String))
    (pr : PRData) (ms : MergeStatus) (tasks : List String)
    (hc : (resolve_reasons ms).is_conflicted = false)
    (hf : (resolve_reasons ms).builds_have_failed = false) :
    (∀ r ∈ pr.reviewers, r.status = "UNAPPROVED" →
        get_slack_name_of mapping r.name
          ∈ collect_people_to_ping mapping pr ms tasks)
      ∧ ∀ x ∈ collect_people_to_ping mapping pr ms tasks,
          (∃ r ∈ pr.reviewers, r.status = "UNAPPROVED"
              ∧ x = get_slack_name_of mapping r.name)
            ∨ x = get_slack_name_of mapping pr.author_name
            ∨ x = author_with_reasons (get_slack_name_of mapping pr.author_name)
                    (authors_unfinished_work_of ms tasks) := by
  constructor
  · intro r hr hst
    have hx : get_slack_name_of mapping r.name ∈ get_undone_reviewers mapping pr :=
      (mem_get_undone_reviewers mapping pr _).mpr ⟨r, hr, hst, rfl⟩
    rw [collect_else mapping pr ms tasks hc hf]
    by_cases hw : (authors_unfinished_work_of ms tasks).isEmpty = true
    · rw [if_pos hw, isEmpty_false_of_mem hx]
      simpa using hx
    · rw [if_neg hw]
      have hx2 : get_slack_name_of mapping r.name
          ∈ (get_undone_reviewers mapping pr).insert
              (author_with_reasons (get_slack_name_of mapping pr.author_name)
                (authors_unfinished_work_of ms tasks)) :=
        List.mem_insert_iff.mpr (Or.inr hx)
      rw [isEmpty_false_of_mem hx2]
      simpa using hx2
  · intro x hx
    rw [collect_else mapping pr ms tasks hc hf] at hx
    by_cases hw : (authors_unfinished_work_of ms tasks).isEmpty = true
    · rw [if_pos hw] at hx
      by_cases hp : (get_undone_reviewers mapping pr).isEmpty = true
      · rw [if_pos hp] at hx
        exact Or.inr (Or.inl (List.mem_singleton.mp hx))
      · rw [if_neg hp] at hx
        exact Or.inl ((mem_get_undone_reviewers mapping pr x).mp hx)
    · rw [if_neg hw, insert_isEmpty_false] at hx
      simp only [Bool.false_eq_true, if_false] at hx
      rcases List.mem_insert_iff.mp hx with hx | hx
      · exact Or.inr (Or.inr hx)
      · exact Or.inl ((mem_get_undone_reviewers mapping pr x).mp hx)

/-- Witness for C9 (amended): an unapproved reviewer's translated handle is
in the ping set. -/
theorem C9_unapproved_reviewers_pinged_witness :
    (resolve_reasons (MergeStatus.mk false [])).is_conflicted = false
      ∧ (resolve_reasons (MergeStatus.mk false [])).builds_have_failed = false
      ∧ get_slack_name_of [("bob", "bobby")] "bob"
          ∈ collect_people_to_ping [("bob", "bobby")]
              (PRData.mk 4 "t" "alice" [Reviewer.mk "bob" "UNAPPROVED"])
              (MergeStatus.mk false []) [] :=
  ⟨rfl, rfl,
   (C9_unapproved_reviewers_pinged [("bob", "bobby")]
       (PRData.mk 4 "t" "alice" [Reviewer.mk "bob" "UNAPPROVED"])
       (MergeStatus.mk false []) [] rfl rfl).1
     (Reviewer.mk "bob" "UNAPPROVED") (by decide) rfl⟩

/-- C10: the builds-in-progress flag never influences the ping set: adding
to a merge-status payload one builds-not-finished veto whose detail lacks
the failure substring leaves the resolver's ping set unchanged for the
same PR, reviewers and open tasks. -/
theorem C10_progress_flag_no_influence (mapping : List (String × String))
    (pr : PRData) (tasks : List String) (conflicted : Bool)
    (vetoes1 vetoes2 : List Veto) (v : Veto)
    (hs : v.summaryMessage = VETO_BUILD_NOT_FINISHED)
    (hd : hasFailedBuilds v.detailedMessage = false) :
    collect_people_to_ping mapping pr
        (MergeStatus.mk conflicted (vetoes1 ++ v :: vetoes2)) tasks
      = collect_people_to_ping mapping pr
          (MergeStatus.mk conflicted (vetoes1 ++ vetoes2)) tasks := by
  have e1 : resolve_reasons (MergeStatus.mk conflicted (vetoes1 ++ v :: vetoes2))
      = vetoes2.foldl resolve_step
          (resolve_step
            (vetoes1.foldl resolve_step (Resolution.mk [] conflicted false false)) v) := by
    unfold resolve_reasons
    rw [List.foldl_append, List.foldl_cons]
  have e2 : resolve_reasons (MergeStatus.mk conflicted (vetoes1 ++ vetoes2))
      = vetoes2.foldl resolve_step
          (vetoes1.foldl resolve_step (Resolution.mk [] conflicted false false)) := by
    unfold resolve_reasons
    rw [List.foldl_append]
  have hv : (resolve_step
      (vetoes1.foldl resolve_step (Resolution.mk [] conflicted false false)) v).valid_vetos
      = (vetoes1.foldl resolve_step (Resolution.mk [] conflicted false false)).valid_vetos := by
    rw [resolve_step_valid_vetos, if_neg]
    rintro ⟨_, hne⟩
    exact hne hs
  have hcf : (resolve_step
      (vetoes1.foldl resolve_step (Resolution.mk [] conflicted false false)) v).is_conflicted
      = (vetoes1.foldl resolve_step (Resolution.mk [] conflicted false false)).is_conflicted :=
    resolve_step_is_conflicted _ v
  have hff : (resolve_step
      (vetoes1.foldl resolve_step (Resolution.mk [] conflicted false false)) v).builds_have_failed
      = (vetoes1.foldl resolve_step (Resolution.mk [] conflicted false false)).builds_have_failed := by
    rw [resolve_step_failed]
    simp [failPred, hs, hd]
  have h3 := foldl_three_fields vetoes2 _ _ hv hcf hff
  exact collect_congr mapping pr tasks _ _
    (by rw [e1, e2]; exact h3.1)
    (by rw [e1, e2]; exact h3.2.1)
    (by rw [e1, e2]; exact h3.2.2)

/-- Witness for C10: inserting an in-progress builds veto between two other
vetoes leaves the ping set unchanged at a concrete input. -/
theorem C10_progress_flag_no_influence_witness :
    (Veto.mk VETO_BUILD_NOT_FINISHED "builds in flight").summaryMessage
        = VETO_BUILD_NOT_FINISHED
      ∧ hasFailedBuilds
          (Veto.mk VETO_BUILD_NOT_FINISHED "builds in flight").detailedMessage = false
      ∧ collect_people_to_ping [] (PRData.mk 5 "t" "alice" [Reviewer.mk "bob" "UNAPPROVED"])
          (MergeStatus.mk false
            ([Veto.mk "Strange veto" "d"]
              ++ Veto.mk VETO_BUILD_NOT_FINISHED "builds in flight"
                :: [Veto.mk "Requires approvals" "d"])) ["task one"]
        = collect_people_to_ping [] (PRData.mk 5 "t" "alice" [Reviewer.mk "bob" "UNAPPROVED"])
            (MergeStatus.mk false
              ([Veto.mk "Strange veto" "d"] ++ [Veto.mk "Requires approvals" "d"]))
            ["task one"] :=
  ⟨rfl, by decide,
   C10_progress_flag_no_influence [] (PRData.mk 5 "t" "alice" [Reviewer.mk "bob" "UNAPPROVED"])
     ["task one"] false [Veto.mk "Strange veto" "d"] [Veto.mk "Requires approvals" "d"]
     (Veto.mk VETO_BUILD_NOT_FINISHED "builds in flight") rfl (by decide)⟩

end PRRem
